import Mathlib

/-!
Shallow embedding of `phase-1-prototype/genome/capa_a_bootloader/bootloader.c`.

Memory regions are byte-addressed maps `Nat → Nat` with byte values kept
below 256 by construction of the writers. The external collaborators of the
boot chain (the Ed25519 primitive) are passed to `boot_rom_entry` as a
function argument; the source's own stub `ed25519_verify` is embedded
separately and instantiates it.
-/

/-- A byte-addressed memory region, as in the raw RAM the C code writes. -/
abbrev Mem : Type := Nat → Nat

/-- `#define GENOME_MAX_SIZE (128 * 1024)` -/
def GENOME_MAX_SIZE : Nat := 128 * 1024

/-- `#define PRIVATE_KEY_SIZE 32` -/
def PRIVATE_KEY_SIZE : Nat := 32

/-- `const uint8_t GENOME_SIGNATURE_KEY[32] = {0};` — all 32 bytes zero. -/
def GENOME_SIGNATURE_KEY : Mem := fun _ => 0

/-- `puf_derive_key`: fills `key_buffer[i] = (uint8_t)(i + 0xAB)` for every
`i < buffer_size`; bytes at or beyond `buffer_size` are untouched. -/
def puf_derive_key (key_buffer : Mem) (buffer_size : Nat) : Mem :=
  fun i => if i < buffer_size then (i + 0xAB) % 256 else key_buffer i

/-- `download_genome`: fills `genome_buffer[i] = (uint8_t)(i % 256)` for every
`i < buffer_size`; bytes at or beyond `buffer_size` are untouched. -/
def download_genome (genome_buffer : Mem) (buffer_size : Nat) : Mem :=
  fun i => if i < buffer_size then i % 256 else genome_buffer i

/-- `ed25519_verify`: the source's stub returns `true` unconditionally,
ignoring the data, the length and the key. -/
def ed25519_verify (data : Mem) (data_size : Nat) (signature_key : Mem) : Bool :=
  true

/-- `execute_stage0`: placeholder with no observable effect in the source. -/
def execute_stage0 (genome_buffer : Mem) : Unit := ()

/-- The single control state of `enter_safe_mode`'s `while(1);` loop. -/
inductive SafeModeState : Type
  | Looping
deriving DecidableEq

/-- One iteration of `while(1);` inside `enter_safe_mode`: the loop body is
empty, so the state is unchanged and control never leaves the loop. -/
def enter_safe_mode_step : SafeModeState → SafeModeState
  | SafeModeState.Looping => SafeModeState.Looping

/-- Terminal outcome of a boot run: `execute_stage0` handoff or safe mode. -/
inductive BootOutcome : Type
  | Executing
  | SafeMode
deriving DecidableEq

/-- Observable calls made by `boot_rom_entry`, in program order. -/
inductive BootEvent : Type
  | PufInit
  | DeriveKey
  | Download
  | Verify
  | Execute
  | EnterSafeMode
deriving DecidableEq

/-- Everything observable about one run of `boot_rom_entry`. -/
structure BootRun : Type where
  /-- the `device_private_key` region at the moment control is handed off;
  the source performs no wipe between derivation and the branch. -/
  keyMem : Mem
  /-- genome-region contents immediately before `download_genome`; the source
  performs no zeroing step between entry and the call. -/
  preAcquireMem : Mem
  /-- genome-region contents after `download_genome` returns. -/
  genomeMem : Mem
  /-- the `data_size` argument passed to the verification call. -/
  verifyLenArg : Nat
  /-- the terminal state of the run. -/
  outcome : BootOutcome
  /-- the calls the run performs, in order. -/
  trace : List BootEvent

/-- `boot_rom_entry`, parameterized over the external Ed25519 primitive
(`ed25519_verify_impl`) and over the initial contents of the key-buffer
region (`keyInit`) and of the RAM backing the genome buffer (`ramInit`).
The control flow mirrors the source: derive the key, download
`GENOME_MAX_SIZE` bytes, verify over `GENOME_MAX_SIZE` with
`GENOME_SIGNATURE_KEY`, then branch to `execute_stage0` or
`enter_safe_mode`. -/
def boot_rom_entry (ed25519_verify_impl : Mem → Nat → Mem → Bool)
    (keyInit ramInit : Mem) : BootRun :=
  let device_private_key : Mem := puf_derive_key keyInit PRIVATE_KEY_SIZE
  let genome_buffer : Mem := download_genome ramInit GENOME_MAX_SIZE
  let verdict : Bool :=
    ed25519_verify_impl genome_buffer GENOME_MAX_SIZE GENOME_SIGNATURE_KEY
  { keyMem := device_private_key
    preAcquireMem := ramInit
    genomeMem := genome_buffer
    verifyLenArg := GENOME_MAX_SIZE
    outcome := if verdict then BootOutcome.Executing else BootOutcome.SafeMode
    trace :=
      [BootEvent.PufInit, BootEvent.DeriveKey, BootEvent.Download,
       BootEvent.Verify] ++
      (if verdict then [BootEvent.Execute] else [BootEvent.EnterSafeMode]) }

/-- The all-zero initial memory used as a concrete instantiation. -/
def zeroMem : Mem := fun _ => 0

/-- C1: for every verification primitive, initial key memory and initial RAM
such that the primitive returns `true` (Authentic) on the acquired genome and
the baked-in public key, the boot run terminates in `Executing` and
`enter_safe_mode` is never invoked. -/
theorem C1_authentic_reaches_executing
    (ed25519_verify_impl : Mem → Nat → Mem → Bool) (keyInit ramInit : Mem)
    (h : ed25519_verify_impl (download_genome ramInit GENOME_MAX_SIZE)
          GENOME_MAX_SIZE GENOME_SIGNATURE_KEY = true) :
    (boot_rom_entry ed25519_verify_impl keyInit ramInit).outcome =
        BootOutcome.Executing ∧
      BootEvent.EnterSafeMode ∉
        (boot_rom_entry ed25519_verify_impl keyInit ramInit).trace := by
  constructor <;> simp [boot_rom_entry, h]

/-- Witness for C1: the source's own stub primitive returns `true` on the
all-zero instantiation, and that run executes stage-0 without safe mode. -/
theorem C1_witness :
    ed25519_verify (download_genome zeroMem GENOME_MAX_SIZE) GENOME_MAX_SIZE
        GENOME_SIGNATURE_KEY = true ∧
      ((boot_rom_entry ed25519_verify zeroMem zeroMem).outcome =
          BootOutcome.Executing ∧
        BootEvent.EnterSafeMode ∉
          (boot_rom_entry ed25519_verify zeroMem zeroMem).trace) :=
  ⟨rfl, C1_authentic_reaches_executing ed25519_verify zeroMem zeroMem rfl⟩

/-- C2: for every verification primitive, initial key memory and initial RAM
such that the primitive returns `false` (Inauthentic) on the acquired genome
and the baked-in public key, the boot run terminates in `SafeMode` and
`execute_stage0` is never invoked. -/
theorem C2_inauthentic_reaches_safe_mode
    (ed25519_verify_impl : Mem → Nat → Mem → Bool) (keyInit ramInit : Mem)
    (h : ed25519_verify_impl (download_genome ramInit GENOME_MAX_SIZE)
          GENOME_MAX_SIZE GENOME_SIGNATURE_KEY = false) :
    (boot_rom_entry ed25519_verify_impl keyInit ramInit).outcome =
        BootOutcome.SafeMode ∧
      BootEvent.Execute ∉
        (boot_rom_entry ed25519_verify_impl keyInit ramInit).trace := by
  constructor <;> simp [boot_rom_entry, h]

/-- Witness for C2: a rejecting primitive on the all-zero instantiation
lands the run in safe mode with no stage-0 execution. -/
theorem C2_witness :
    (fun (_ : Mem) (_ : Nat) (_ : Mem) => false)
        (download_genome zeroMem GENOME_MAX_SIZE) GENOME_MAX_SIZE
        GENOME_SIGNATURE_KEY = false ∧
      ((boot_rom_entry (fun _ _ _ => false) zeroMem zeroMem).outcome =
          BootOutcome.SafeMode ∧
        BootEvent.Execute ∉
          (boot_rom_entry (fun _ _ _ => false) zeroMem zeroMem).trace) :=
  ⟨rfl, C2_inauthentic_reaches_safe_mode (fun _ _ _ => false) zeroMem zeroMem rfl⟩

/-- C3 (code evidence): the source's `ed25519_verify` is exactly the
default-true fallback the design forbids — it returns `true` for every data
buffer, every length and every key, and the boot run with it executes the
unverified payload. -/
theorem C3_stub_is_default_true :
    (∀ (data : Mem) (data_size : Nat) (signature_key : Mem),
        ed25519_verify data data_size signature_key = true) ∧
      (boot_rom_entry ed25519_verify zeroMem zeroMem).outcome =
        BootOutcome.Executing :=
  ⟨fun _ _ _ => rfl, rfl⟩

/-- C4 (code evidence): for every primitive and every initial memory, the
length argument passed to the verification call is the fixed compile-time
maximum `GENOME_MAX_SIZE` = 131072 bytes, not an acquirer-reported count
(the stub acquirer reports none). -/
theorem C4_verify_length_is_fixed_max
    (ed25519_verify_impl : Mem → Nat → Mem → Bool) (keyInit ramInit : Mem) :
    (boot_rom_entry ed25519_verify_impl keyInit ramInit).verifyLenArg =
        GENOME_MAX_SIZE ∧
      GENOME_MAX_SIZE = 131072 :=
  ⟨rfl, rfl⟩

/-- C5 (code evidence): a run that reaches `Executing` still holds the
derived device secret in the key buffer at handoff — byte 0 is 0xAB = 171,
the derived pattern, not a wiped value. -/
theorem C5_key_not_wiped_at_handoff :
    (boot_rom_entry ed25519_verify zeroMem zeroMem).outcome =
        BootOutcome.Executing ∧
      (boot_rom_entry ed25519_verify zeroMem zeroMem).keyMem 0 = 171 :=
  ⟨rfl, rfl⟩

/-- C6 (code evidence): the orchestrator performs no zeroing pass before
acquisition — with initial RAM holding 1 everywhere, the genome region still
holds 1 at byte 0 immediately before `download_genome` runs. -/
theorem C6_no_zeroing_before_acquisition :
    (boot_rom_entry ed25519_verify zeroMem (fun _ => 1)).preAcquireMem 0 = 1 :=
  rfl

/-- C7 (code evidence): `download_genome` has no capacity guard — offered a
length one byte past the 131072-byte capacity, it overwrites the byte at the
capacity boundary (from 1 to 131072 % 256 = 0) instead of leaving it
unchanged. -/
theorem C7_oversized_length_writes_past_capacity :
    download_genome (fun _ => 1) (GENOME_MAX_SIZE + 1) GENOME_MAX_SIZE = 0 ∧
      (0 : Nat) ≠ 1 :=
  ⟨by decide, by decide⟩

/-- C8: safe mode is terminal — in any run whose trace invokes
`enter_safe_mode`, that invocation is the last event and `execute_stage0`
never runs; and the `while(1);` loop inside `enter_safe_mode` stays in its
single state after every number of iterations, so control never returns. -/
theorem C8_safe_mode_terminal
    (ed25519_verify_impl : Mem → Nat → Mem → Bool) (keyInit ramInit : Mem)
    (h : BootEvent.EnterSafeMode ∈
        (boot_rom_entry ed25519_verify_impl keyInit ramInit).trace) :
    ((boot_rom_entry ed25519_verify_impl keyInit ramInit).trace.getLast? =
        some BootEvent.EnterSafeMode ∧
      BootEvent.Execute ∉
        (boot_rom_entry ed25519_verify_impl keyInit ramInit).trace) ∧
      ∀ n : Nat,
        Nat.iterate enter_safe_mode_step n SafeModeState.Looping =
          SafeModeState.Looping := by
  constructor
  · cases hv : ed25519_verify_impl (download_genome ramInit GENOME_MAX_SIZE)
      GENOME_MAX_SIZE GENOME_SIGNATURE_KEY
    · constructor <;> simp [boot_rom_entry, hv]
    · exact absurd h (by simp [boot_rom_entry, hv])
  · intro n
    have hall : ∀ s : SafeModeState, s = SafeModeState.Looping := by
      intro s; cases s; rfl
    exact hall _

/-- Witness for C8: a rejecting primitive yields a trace containing the
safe-mode entry, and the theorem's conclusions hold for that run. -/
theorem C8_witness :
    BootEvent.EnterSafeMode ∈
        (boot_rom_entry (fun _ _ _ => false) zeroMem zeroMem).trace ∧
      (((boot_rom_entry (fun _ _ _ => false) zeroMem zeroMem).trace.getLast? =
          some BootEvent.EnterSafeMode ∧
        BootEvent.Execute ∉
          (boot_rom_entry (fun _ _ _ => false) zeroMem zeroMem).trace) ∧
        ∀ n : Nat,
          Nat.iterate enter_safe_mode_step n SafeModeState.Looping =
            SafeModeState.Looping) :=
  ⟨by decide,
   C8_safe_mode_terminal (fun _ _ _ => false) zeroMem zeroMem (by decide)⟩

/-- C9: with the source's own stub primitive, whose result ignores all of
its inputs, every boot run — for every initial key memory and every initial
RAM content — executes stage-0 and never invokes `enter_safe_mode`. -/
theorem C9_safe_mode_unreachable_with_stub :
    (∀ (data : Mem) (data_size : Nat) (signature_key : Mem),
        ed25519_verify data data_size signature_key = true) ∧
      ∀ keyInit ramInit : Mem,
        (boot_rom_entry ed25519_verify keyInit ramInit).outcome =
            BootOutcome.Executing ∧
          BootEvent.Execute ∈
            (boot_rom_entry ed25519_verify keyInit ramInit).trace ∧
          BootEvent.EnterSafeMode ∉
            (boot_rom_entry ed25519_verify keyInit ramInit).trace := by
  refine ⟨fun _ _ _ => rfl, fun keyInit ramInit => ⟨rfl, ?_, ?_⟩⟩ <;>
    simp [boot_rom_entry, ed25519_verify]

/-- C10: for every prior buffer content and requested length, byte i of the
derived key is (i + 0xAB) mod 256 whenever i is below the length, and the
result is independent of the prior buffer content (identical on every run
and device). -/
theorem C10_puf_key_fixed_pattern
    (buf buf2 : Mem) (size i : Nat) (h : i < size) :
    puf_derive_key buf size i = (i + 0xAB) % 256 ∧
      puf_derive_key buf size i = puf_derive_key buf2 size i := by
  constructor <;> simp [puf_derive_key, h]

/-- Witness for C10: byte 0 of a 32-byte derivation is 0xAB regardless of
prior buffer contents. -/
theorem C10_witness :
    0 < 32 ∧
      (puf_derive_key zeroMem 32 0 = (0 + 0xAB) % 256 ∧
        puf_derive_key zeroMem 32 0 = puf_derive_key (fun _ => 7) 32 0) :=
  ⟨by decide, C10_puf_key_fixed_pattern zeroMem (fun _ => 7) 32 0 (by decide)⟩
